import Mathlib

/-!
Verification development for the FAST-GA estimation-model library.

This file gives a shallow embedding, over exact rational arithmetic `ℚ`, of

* `fastga/models/propulsion/fuel_propulsion/basicIC_engine/basicIC_engine.py`
  (class `BasicICEngine`: `_compute_flight_points`, `_check_thrust_inputs`,
  `propeller_efficiency`, `sfc_at_max_power`, `sfc_ratio`, `max_thrust`,
  `compute_dimensions`, `compute_drag`), and
* `fastga/models/aerodynamics/components/wing/compute_cn_yaw_rate_wing.py`
  (class `ComputeCnYawRateWing`: `setup`, `compute`).

Modelling conventions:

* Python floats are idealised as rationals; every operation used by the code
  on the paths we verify (+, -, *, /, min, max, integer powers, piecewise
  linear interpolation) is exact on `ℚ`.  Non-rational float primitives that
  the code uses (`x ** 0.65`, `x ** (1/3)`, `math.log10`, `math.sqrt`,
  `math.pi`, and the scipy `interp2d` cubic splines built from the propeller
  efficiency tables) are external library calls; they are abstracted as
  function parameters (`MathPrims`, and the `etaSL`/`etaCL` fields of
  `BasicICEngine`).
* The `fastoad` `Atmosphere` class is an external collaborator; an `Atm`
  record carries the quantities the embedded code reads from it (altitude,
  density, true airspeed, Mach).  The sea-level density of that external
  standard atmosphere is 1.225 kg/m³.
* Fallible Python code (explicit `raise`, and the `NameError` in the scalar
  branch of `max_thrust`) is modelled with `Except String`.
* `np.interp` is embedded for increasing abscissae (the regime in which the
  code calls it); `np.linspace(a, b, 10)` is the exact 10-point grid.
* `np.empty_like` produces arrays with unspecified contents; those contents
  are modelled as 0 and are never read by the embedded computations.
-/

namespace FastGA

/-- Minimum of a list of rationals (`np.min`); the code only applies it to
nonempty tables, the empty default is 0. -/
def listMin : List ℚ → ℚ
  | [] => 0
  | x :: xs => xs.foldl min x

/-- Tail worker for `interp1`: piecewise-linear interpolation once we are to
the right of the first node. -/
def interp1Go (x : ℚ) : ℚ × ℚ → List (ℚ × ℚ) → ℚ
  | (_, fj), [] => fj
  | (xj, fj), (xk, fk) :: rest =>
    if x ≤ xk then fj + (fk - fj) * (x - xj) / (xk - xj) else interp1Go x (xk, fk) rest

/-- `np.interp x xp fp` on the zipped node list, for increasing abscissae:
clamps to the first/last ordinate outside the range, linear in between. -/
def interp1 (x : ℚ) : List (ℚ × ℚ) → ℚ
  | [] => 0
  | (x0, f0) :: rest => if x ≤ x0 then f0 else interp1Go x (x0, f0) rest

/-- `np.linspace a b 10`: the 10 equally spaced samples from `a` to `b`. -/
def linspace10 (a b : ℚ) : List ℚ :=
  (List.range 10).map fun i => a + (b - a) * (i : ℚ) / 9

/-- External float-math primitives used by the engine code (`**` with a
non-integer exponent, `math.log10`, `math.sqrt`, `math.pi`, and the cube
root `** (1/3)` of `compute_dimensions`).  They are parameters of the
embedding; no verified claim depends on their values. -/
structure MathPrims where
  cbrt : ℚ → ℚ
  rpow : ℚ → ℚ → ℚ
  log10 : ℚ → ℚ
  sqrt : ℚ → ℚ
  pi : ℚ

/-- The quantities the engine code reads from the external `fastoad`
`Atmosphere` object at one flight point. -/
structure Atm where
  altitude : ℚ
  density : ℚ
  true_airspeed : ℚ
  mach : ℚ
deriving DecidableEq

/-- Sea-level density of the external standard atmosphere
(`Atmosphere(0.0).density`), in kg/m³. -/
def rho0 : ℚ := 1.225

/-- The state of a `BasicICEngine` instance, as set by `__init__`.
`etaSL`/`etaCL` abstract the external scipy `interp2d(..., kind='cubic')`
splines built from `efficiency_SL`/`efficiency_CL`: they map a (clamped)
thrust and a true airspeed to a propeller efficiency. -/
structure BasicICEngine where
  max_power : ℚ
  design_altitude : ℚ
  design_speed : ℚ
  fuel_type : ℚ
  strokes_nb : ℚ
  prop_layout : ℚ
  speed_SL : List ℚ
  thrust_SL : List ℚ
  thrust_limit_SL : List ℚ
  etaSL : ℚ → ℚ → ℚ
  speed_CL : List ℚ
  thrust_CL : List ℚ
  thrust_limit_CL : List ℚ
  etaCL : ℚ → ℚ → ℚ

/-- `BasicICEngine.propeller_efficiency`, scalar branch (`np.size(thrust) == 1`):
clamp the thrust into each table's admissible range, query the two splines,
then `np.interp` the result between sea level and the design altitude. -/
def propeller_efficiency (e : BasicICEngine) (thrust alt tas : ℚ) : ℚ :=
  let tSL := min (max (listMin e.thrust_SL) thrust) (interp1 tas (e.speed_SL.zip e.thrust_limit_SL))
  let tCL := min (max (listMin e.thrust_CL) thrust) (interp1 tas (e.speed_CL.zip e.thrust_limit_CL))
  let lower := e.etaSL tSL tas
  let upper := e.etaCL tCL tas
  interp1 alt [(0, lower), (e.design_altitude, upper)]

/-- `BasicICEngine.propeller_efficiency`, array branch, for one element: same
clamping and spline queries, but the altitude blend is written as
`lower + (upper - lower) * min(alt, design_altitude) / design_altitude`. -/
def propeller_efficiency_blend (e : BasicICEngine) (thrust alt tas : ℚ) : ℚ :=
  let tSL := min (max (listMin e.thrust_SL) thrust) (interp1 tas (e.speed_SL.zip e.thrust_limit_SL))
  let tCL := min (max (listMin e.thrust_CL) thrust) (interp1 tas (e.speed_CL.zip e.thrust_limit_CL))
  let lower := e.etaSL tSL tas
  let upper := e.etaCL tCL tas
  lower + (upper - lower) * min alt e.design_altitude / e.design_altitude

/-- `BasicICEngine.max_thrust`, scalar branch (`np.size(altitude) == 1`).
The propeller-limited thrust is the altitude blend of the two table limits;
the 10-point thrust grid gives the mechanical power curve.  When the whole
curve exceeds the available engine power, the source enters a `while` loop
whose first statement assigns to `thrust_max_global[idx]`, but neither
`thrust_max_global` nor `idx` is defined in this branch, so Python raises
`NameError`; otherwise the power-limited thrust is found by `np.interp`. -/
def max_thrust (e : BasicICEngine) (a : Atm) : Except String ℚ :=
  let lower := interp1 a.true_airspeed (e.speed_SL.zip e.thrust_limit_SL)
  let upper := interp1 a.true_airspeed (e.speed_CL.zip e.thrust_limit_CL)
  let tmaxProp := lower + (upper - lower) * min a.altitude e.design_altitude / e.design_altitude
  let sigma := a.density / rho0
  let maxPower := e.max_power * (sigma - (1 - sigma) / 7.55)
  let ti := linspace10 (listMin e.thrust_SL) tmaxProp
  let eff := ti.map fun t => propeller_efficiency_blend e t a.altitude a.true_airspeed
  let mech := List.zipWith (fun t h => t * a.true_airspeed / h) ti eff
  if listMin mech > maxPower then
    Except.error "NameError: name thrust_max_global is not defined"
  else
    Except.ok (interp1 maxPower (mech.zip ti))

/-- The `while` loop of the array branch of `BasicICEngine.max_thrust`:
state is (current efficiency, current `efficiency_relative_error`, thrust
stored so far).  Note the source divides the efficiency change by the
previous error value, not by the efficiency.  A fuel argument bounds the
embedded recursion; exhausting it reports an error. -/
def eff_loop (e : BasicICEngine) (a : Atm) (maxPower : ℚ) :
    ℕ → ℚ → ℚ → ℚ → Except String ℚ
  | 0, _, _, _ => Except.error "iteration budget exhausted"
  | n + 1, eff, err, tmg =>
    if err > 1 / 100 then
      let tmg2 := maxPower * eff / a.true_airspeed
      let eff2 := propeller_efficiency e tmg2 a.altitude a.true_airspeed
      let err2 := |eff2 - eff| / err
      eff_loop e a maxPower n eff2 err2 tmg2
    else Except.ok tmg

/-- `BasicICEngine.max_thrust`, array branch, for element `idx`: same
construction as the scalar branch, but the over-power case runs the
efficiency iteration (here `thrust_max_global` is a defined array). -/
def max_thrust_idx (e : BasicICEngine) (a : Atm) (fuel : ℕ) : Except String ℚ :=
  let lower := interp1 a.true_airspeed (e.speed_SL.zip e.thrust_limit_SL)
  let upper := interp1 a.true_airspeed (e.speed_CL.zip e.thrust_limit_CL)
  let tmaxProp := lower + (upper - lower) * min a.altitude e.design_altitude / e.design_altitude
  let sigma := a.density / rho0
  let maxPower := e.max_power * (sigma - (1 - sigma) / 7.55)
  let ti := linspace10 (listMin e.thrust_SL) tmaxProp
  let eff := ti.map fun t => propeller_efficiency_blend e t a.altitude a.true_airspeed
  let mech := List.zipWith (fun t h => t * a.true_airspeed / h) ti eff
  if listMin mech > maxPower then eff_loop e a maxPower fuel (eff.headD 0) 1 0
  else Except.ok (interp1 maxPower (mech.zip ti))

/-- `BasicICEngine.max_thrust` on an array of flight points. -/
def max_thrust_arr (e : BasicICEngine) (atms : List Atm) (fuel : ℕ) :
    Except String (List ℚ) :=
  match atms with
  | [] => Except.ok []
  | a :: rest =>
    match max_thrust_idx e a fuel with
    | Except.error s => Except.error s
    | Except.ok x =>
      match max_thrust_arr e rest fuel with
      | Except.error s => Except.error s
      | Except.ok xs => Except.ok (x :: xs)

/-- `BasicICEngine.sfc_at_max_power`: density-scaled power in kW, then the
regression selected by fuel type and stroke count (the `x ** (-0.2441)`
power law of the 2-stroke gasoline branch goes through the abstract `rpow`);
result converted to kg/s/W. -/
def sfc_at_max_power (e : BasicICEngine) (prims : MathPrims) (density : ℚ) : ℚ :=
  let sigma := density / rho0
  let maxPowerKW := (e.max_power / 1000) * (sigma - (1 - sigma) / 7.55)
  let sfcP :=
    if e.fuel_type = 1 then
      if e.strokes_nb = 2 then 1125.9 * prims.rpow maxPowerKW (-0.2441)
      else -0.0011 * maxPowerKW ^ 2 + 0.5905 * maxPowerKW + 228.58
    else if e.fuel_type = 2 then
      if e.strokes_nb = 2 then -0.765 * maxPowerKW + 334.94
      else -0.964 * maxPowerKW + 231.91
    else
      if e.strokes_nb = 2 then 1125.9 * prims.rpow maxPowerKW (-0.2441)
      else -0.0011 * maxPowerKW ^ 2 + 0.5905 * maxPowerKW + 228.58
  sfcP / 1000000 / 3600

/-- The value part of `BasicICEngine.sfc_ratio` (scalar), given the already
computed maximum thrust `M`: returns (SFC ratio, mechanical power in W). -/
def sfc_ratio_val (e : BasicICEngine) (a : Atm) (M thrustRate : ℚ) : ℚ × ℚ :=
  let thrust := M * thrustRate
  let sigma := a.density / rho0
  let maxPower := e.max_power * (sigma - (1 - sigma) / 7.55)
  let eta := propeller_efficiency e thrust a.altitude a.true_airspeed
  let realPower := thrust * a.true_airspeed / eta
  let powerRate := realPower / maxPower
  (-0.9976 * powerRate ^ 2 + 1.9964 * powerRate, powerRate * maxPower)

/-- `BasicICEngine.sfc_ratio` (scalar): recomputes `max_thrust` and applies
`sfc_ratio_val`. -/
def sfc_ratio (e : BasicICEngine) (a : Atm) (thrustRate : ℚ) : Except String (ℚ × ℚ) :=
  match max_thrust e a with
  | Except.error s => Except.error s
  | Except.ok M => Except.ok (sfc_ratio_val e a M thrustRate)

/-- One element of the array branch of `BasicICEngine.sfc_ratio`; the
propeller efficiency uses the array-branch altitude blend. -/
def sfc_ratio_elem (e : BasicICEngine) (a : Atm) (M r : ℚ) : ℚ × ℚ :=
  let thrust := M * r
  let sigma := a.density / rho0
  let maxPower := e.max_power * (sigma - (1 - sigma) / 7.55)
  let eta := propeller_efficiency_blend e thrust a.altitude a.true_airspeed
  let realPower := thrust * a.true_airspeed / eta
  let powerRate := realPower / maxPower
  (-0.9976 * powerRate ^ 2 + 1.9964 * powerRate, powerRate * maxPower)

/-- `BasicICEngine.sfc_ratio` on arrays. -/
def sfc_ratio_arr (e : BasicICEngine) (atms : List Atm) (rates : List ℚ) (fuel : ℕ) :
    Except String (List (ℚ × ℚ)) :=
  match max_thrust_arr e atms fuel with
  | Except.error s => Except.error s
  | Except.ok M =>
    Except.ok ((atms.zip (M.zip rates)).map fun x => sfc_ratio_elem e x.1 x.2.1 x.2.2)

/-- `BasicICEngine._check_thrust_inputs` specialised to scalar inputs
(the general shaped version is `check_thrust_inputs` below).  The `0`
components model the unspecified contents of `np.empty_like`, which the
embedded pipeline never reads. -/
def check_thrust_inputs_scalar (reg : Option Bool) (rate thrust : Option ℚ) :
    Except String (Bool × ℚ × ℚ) :=
  match reg with
  | none =>
    match rate, thrust with
    | some r, _ => Except.ok (false, r, 0)
    | none, some t => Except.ok (true, 0, t)
    | none, none =>
      Except.error "When use_thrust_rate is None, either thrust_rate or thrust should be provided."
  | some b =>
    if b then
      match thrust with
      | none => Except.error "When thrust_is_regulated is True, thrust should be provided."
      | some t => Except.ok (true, 0, t)
    else
      match rate with
      | none => Except.error "When thrust_is_regulated is False, thrust_rate should be provided."
      | some r => Except.ok (false, r, 0)

/-- Line 231 of the source: `mach = mach + (mach == 0) * 1e-12`. -/
def adjustMach (a : Atm) : Atm :=
  { a with mach := a.mach + (if a.mach = 0 then 1 / 1000000000000 else 0) }

/-- `BasicICEngine._compute_flight_points` for one scalar flight point.
`es` is the (unused by the computation) engine setting.  Bookkeeping of
lines 236-259: an unregulated point converts its thrust rate to a thrust,
a regulated point clips its thrust at the maximum thrust; the thrust rate
is then recomputed as thrust over maximum thrust; finally
`sfc = sfc_at_max_power * sfc_ratio * mech_power / max(thrust, 1e-6)`. -/
def compute_flight_points (e : BasicICEngine) (prims : MathPrims) (atm : Atm) (_es : ℚ)
    (reg : Option Bool) (rate thrust : Option ℚ) : Except String (ℚ × ℚ × ℚ) :=
  match check_thrust_inputs_scalar reg rate thrust with
  | Except.error s => Except.error s
  | Except.ok (breg, r0, t0) =>
    match max_thrust e (adjustMach atm) with
    | Except.error s => Except.error s
    | Except.ok M =>
      let outThrust := if breg then min t0 M else r0 * M
      let outRate := outThrust / M
      match sfc_ratio e (adjustMach atm) outRate with
      | Except.error s => Except.error s
      | Except.ok rm =>
        Except.ok
          (sfc_at_max_power e prims atm.density * rm.1 * rm.2 / max outThrust (1 / 1000000),
           outRate, outThrust)

/-- Element-wise thrust bookkeeping of lines 251-255 for arrays: a regulated
element is clipped at the maximum thrust, an unregulated one converts its
rate to a thrust. -/
def thrustBook : List Bool → List ℚ → List ℚ → List ℚ → List ℚ
  | b :: bs, r :: rs, t :: ts, m :: ms =>
    (if b then min t m else r * m) :: thrustBook bs rs ts ms
  | _, _, _, _ => []

/-- `BasicICEngine._compute_flight_points` on arrays of flight points whose
per-point inputs all have the same length (the regime the shape checks and
numpy broadcasting reduce to); mismatched lengths stand for a numpy
broadcast failure. -/
def compute_flight_points_arr (e : BasicICEngine) (prims : MathPrims) (atms : List Atm)
    (_ess : List ℚ) (reg : List Bool) (rate thrust : List ℚ) (fuel : ℕ) :
    Except String (List ℚ × List ℚ × List ℚ) :=
  if rate.length = reg.length ∧ thrust.length = reg.length ∧ atms.length = reg.length then
    let atms2 := atms.map adjustMach
    match max_thrust_arr e atms2 fuel with
    | Except.error s => Except.error s
    | Except.ok M =>
      let outThrust := thrustBook reg rate thrust M
      let outRate := List.zipWith (· / ·) outThrust M
      match sfc_ratio_arr e atms2 outRate fuel with
      | Except.error s => Except.error s
      | Except.ok rm =>
        let sfcPmax := atms2.map fun a => sfc_at_max_power e prims a.density
        let sfc := List.zipWith (fun pr t => pr.1 * pr.2.1 * pr.2.2 / max t (1 / 1000000))
          (sfcPmax.zip rm) outThrust
        Except.ok (sfc, outRate, outThrust)
  else Except.error "ValueError: operands could not be broadcast together"

/-- A numeric argument of `_check_thrust_inputs` after `np.asarray`: either a
scalar (shape `()`) or a one-dimensional array (shape `(n,)`). -/
inductive QVal where
  | scalar (q : ℚ)
  | arr (l : List ℚ)
deriving DecidableEq

/-- The `thrust_is_regulated` argument after its rounding conversion to
booleans: a scalar or a one-dimensional boolean array. -/
inductive BVal where
  | scalar (b : Bool)
  | arr (l : List Bool)
deriving DecidableEq

/-- `np.size`. -/
def QVal.size : QVal → ℕ
  | QVal.scalar _ => 1
  | QVal.arr l => l.length

/-- `np.shape`. -/
def QVal.shape : QVal → List ℕ
  | QVal.scalar _ => []
  | QVal.arr l => [l.length]

/-- `np.empty_like`: same shape, unspecified contents (modelled as zeros). -/
def QVal.emptyLike : QVal → QVal
  | QVal.scalar _ => QVal.scalar 0
  | QVal.arr l => QVal.arr (l.map fun _ => 0)

/-- `np.size` of a boolean value. -/
def BVal.size : BVal → ℕ
  | BVal.scalar _ => 1
  | BVal.arr l => l.length

/-- `np.shape` of a boolean value. -/
def BVal.shape : BVal → List ℕ
  | BVal.scalar _ => []
  | BVal.arr l => [l.length]

/-- Python truthiness of a size-1 numpy boolean (the only sizes on which the
source evaluates it). -/
def BVal.truthy : BVal → Bool
  | BVal.scalar b => b
  | BVal.arr l => l.headD false

/-- `BasicICEngine._check_thrust_inputs` (static): consistency checks on the
thrust specification, returning the (possibly `np.empty_like`-completed)
triple on success and the raised
`FastBasicICEngineInconsistentInputParametersError` message on failure. -/
def check_thrust_inputs (reg : Option BVal) (rate thrust : Option QVal) :
    Except String (BVal × QVal × QVal) :=
  match reg with
  | none =>
    match rate, thrust with
    | some r, _ => Except.ok (BVal.scalar false, r, r.emptyLike)
    | none, some t => Except.ok (BVal.scalar true, t.emptyLike, t)
    | none, none =>
      Except.error "When use_thrust_rate is None, either thrust_rate or thrust should be provided."
  | some rv =>
    if rv.size = 1 then
      if rv.truthy then
        match thrust with
        | none => Except.error "When thrust_is_regulated is True, thrust should be provided."
        | some t => Except.ok (rv, t.emptyLike, t)
      else
        match rate with
        | none => Except.error "When thrust_is_regulated is False, thrust_rate should be provided."
        | some r => Except.ok (rv, r, r.emptyLike)
    else
      match rate, thrust with
      | some r, some t =>
        if r.shape ≠ rv.shape ∨ t.shape ≠ rv.shape then
          Except.error
            "When use_thrust_rate is a sequence, both thrust_rate and thrust should have same shape as use_thrust_rate"
        else Except.ok (rv, r, t)
      | _, _ =>
        Except.error
          "When thrust_is_regulated is a sequence, both thrust_rate and thrust should be provided."

/-- Claim C2's error condition, following the claim's words: `None` with
nothing provided; a scalar `True`/`False` missing its matching input; any
sequence missing `thrust_rate` or `thrust` or with a shape mismatch. -/
def c2SpecErrorExpected (reg : Option BVal) (rate thrust : Option QVal) : Bool :=
  match reg with
  | none => rate.isNone && thrust.isNone
  | some (BVal.scalar b) => if b then thrust.isNone else rate.isNone
  | some (BVal.arr l) =>
    match rate, thrust with
    | some r, some t =>
      decide (r.shape ≠ (BVal.arr l).shape) || decide (t.shape ≠ (BVal.arr l).shape)
    | _, _ => true

/-- C2's error condition amended to the code's behaviour: a size-1 value
(scalar or one-element sequence) follows the scalar rule through its
truthiness; the sequence rule applies to sizes other than 1. -/
def c2AmendedErrorExpected (reg : Option BVal) (rate thrust : Option QVal) : Bool :=
  match reg with
  | none => rate.isNone && thrust.isNone
  | some rv =>
    if rv.size = 1 then
      if rv.truthy then thrust.isNone else rate.isNone
    else
      match rate, thrust with
      | some r, some t => decide (r.shape ≠ rv.shape) || decide (t.shape ≠ rv.shape)
      | _, _ => true

/-- Whether an `Except` computation succeeded. -/
def isOkB {ε α : Type} : Except ε α → Bool
  | Except.ok _ => true
  | Except.error _ => false

/-- SFC component of a flight-point result (0 on error). -/
def sfcOf (x : Except String (ℚ × ℚ × ℚ)) : ℚ :=
  match x with
  | Except.ok y => y.1
  | Except.error _ => 0

/-- Thrust-rate component of a flight-point result (0 on error). -/
def rateOf (x : Except String (ℚ × ℚ × ℚ)) : ℚ :=
  match x with
  | Except.ok y => y.2.1
  | Except.error _ => 0

/-- Thrust component of a flight-point result (0 on error). -/
def thrustOf (x : Except String (ℚ × ℚ × ℚ)) : ℚ :=
  match x with
  | Except.ok y => y.2.2
  | Except.error _ => 0

/-- Thrust-rate and thrust components of a flight-point result. -/
def rtOf (x : Except String (ℚ × ℚ × ℚ)) : ℚ × ℚ :=
  match x with
  | Except.ok y => (y.2.1, y.2.2)
  | Except.error _ => (0, 0)

/-- The value of a successful scalar computation (0 on error). -/
def okQ (x : Except String ℚ) : ℚ :=
  match x with
  | Except.ok q => q
  | Except.error _ => 0

/-- First component of a successful pair computation (0 on error). -/
def okPairFst (x : Except String (ℚ × ℚ)) : ℚ :=
  match x with
  | Except.ok y => y.1
  | Except.error _ => 0

/-- Second component of a successful pair computation (0 on error). -/
def okPairSnd (x : Except String (ℚ × ℚ)) : ℚ :=
  match x with
  | Except.ok y => y.2
  | Except.error _ => 0

/-- The value of a successful list computation (`[]` on error). -/
def okList (x : Except String (List ℚ)) : List ℚ :=
  match x with
  | Except.ok l => l
  | Except.error _ => []

/-- SFC list of an array flight-point result. -/
def sfcsOfA (x : Except String (List ℚ × List ℚ × List ℚ)) : List ℚ :=
  match x with
  | Except.ok y => y.1
  | Except.error _ => []

/-- Thrust-rate list of an array flight-point result. -/
def ratesOfA (x : Except String (List ℚ × List ℚ × List ℚ)) : List ℚ :=
  match x with
  | Except.ok y => y.2.1
  | Except.error _ => []

/-- Thrust list of an array flight-point result. -/
def thrustsOfA (x : Except String (List ℚ × List ℚ × List ℚ)) : List ℚ :=
  match x with
  | Except.ok y => y.2.2
  | Except.error _ => []

/-- The reference-engine record chosen by `__init__` from the fuel type:
`(max_power, length, height, width, mass)` of the Lycoming IO-360-B1A for
gasoline, of the TDA CR 1.9 16V otherwise. -/
def refEngine (e : BasicICEngine) : ℚ × ℚ × ℚ × ℚ × ℚ :=
  if e.fuel_type = 1 then (132480, 0.83, 0.57, 0.85, 136)
  else (160000, 0.859, 0.659, 0.650, 205)

/-- `BasicICEngine.compute_dimensions`: engine dimensions scale with the cube
root of the power ratio; the nacelle adds layout-dependent length and 10%
margins; returns `(height, width, length, wet_area)` — a 4-tuple. -/
def compute_dimensions (e : BasicICEngine) (prims : MathPrims) : ℚ × ℚ × ℚ × ℚ :=
  let r := refEngine e
  let scale := prims.cbrt (e.max_power / r.1)
  let engLength := r.2.1 * scale
  let engHeight := r.2.2.1 * scale
  let engWidth := r.2.2.2.1 * scale
  let nacLength := (if e.prop_layout = 3 then 1.15 else 1.50) * engLength
  let h := engHeight * 1.1
  let w := engWidth * 1.1
  (h, w, nacLength, 2 * (h + w) * nacLength)

/-- The 4-tuple returned by `compute_dimensions`, as the value sequence the
unpacking assignment in `compute_drag` iterates over. -/
def tupleToList4 (x : ℚ × ℚ × ℚ × ℚ) : List ℚ :=
  [x.1, x.2.1, x.2.2.1, x.2.2.2]

/-- Python's unpacking assignment `a, b, c, d, e, f = seq`: succeeds only on
a sequence of exactly six values, otherwise raises `ValueError`. -/
def unpack6 (l : List ℚ) : Except String (ℚ × ℚ × ℚ × ℚ × ℚ × ℚ) :=
  match l with
  | [a, b, c, d, e, f] => Except.ok (a, b, c, d, e, f)
  | _ => Except.error "ValueError: not enough values to unpack (expected 6)"

/-- `BasicICEngine.compute_drag`: its first statement unpacks the result of
`compute_dimensions` into six variables; the remainder (shown for fidelity)
computes the Roskam/Raymer nacelle drag from the nacelle dimensions. -/
def compute_drag (e : BasicICEngine) (prims : MathPrims) (mach unitReynolds wingMac : ℚ) :
    Except String ℚ :=
  match unpack6 (tupleToList4 (compute_dimensions e prims)) with
  | Except.error s => Except.error s
  | Except.ok _ =>
    let d := compute_dimensions e prims
    let reynolds := unitReynolds * d.2.2.1
    let cfNac := 0.455 / (prims.rpow (1 + 0.144 * mach ^ 2) 0.65 *
      prims.rpow (prims.log10 reynolds) 2.58)
    let f := d.2.2.1 / prims.sqrt (4 * d.1 * d.2.1 / prims.pi)
    let ffNac := 1 + 0.35 / f
    let ifNac := 0.036 * d.2.1 * wingMac * 0.04
    Except.ok (cfNac * ffNac * d.2.2.2 + ifNac)

/-- Variable names used by `ComputeCnYawRateWing`. -/
def arName : String := "data:geometry:wing:aspect_ratio"

/-- Wing taper ratio input name. -/
def taperName : String := "data:geometry:wing:taper_ratio"

/-- Wing quarter-chord sweep input name. -/
def sweepName : String := "data:geometry:wing:sweep_25"

/-- Stick-fixed static margin input name. -/
def smName : String := "data:handling_qualities:stick_fixed_static_margin"

/-- Reference angle-of-attack input name. -/
def aoaName : String := "settings:aerodynamics:reference_flight_conditions:AOA"

/-- Low-speed wing CD0 input name. -/
def lsCD0name : String := "data:aerodynamics:wing:low_speed:CD0"

/-- Low-speed wing clean CL0 input name. -/
def lsCL0name : String := "data:aerodynamics:wing:low_speed:CL0_clean"

/-- Low-speed wing lift-curve slope input name. -/
def lsCLaName : String := "data:aerodynamics:wing:low_speed:CL_alpha"

/-- Low-speed wing Cn_r output name. -/
def lsCnRname : String := "data:aerodynamics:wing:low_speed:Cn_r"

/-- Cruise wing CD0 input name. -/
def crCD0name : String := "data:aerodynamics:wing:cruise:CD0"

/-- Cruise wing clean CL0 input name. -/
def crCL0name : String := "data:aerodynamics:wing:cruise:CL0_clean"

/-- Cruise wing lift-curve slope input name. -/
def crCLaName : String := "data:aerodynamics:wing:cruise:CL_alpha"

/-- Cruise wing Cn_r output name. -/
def crCnRname : String := "data:aerodynamics:wing:cruise:Cn_r"

/-- The option-independent inputs declared by `ComputeCnYawRateWing.setup`. -/
def baseInputNames : List String :=
  [arName, taperName, sweepName, smName, aoaName]

/-- The full input list declared by `ComputeCnYawRateWing.setup` for the
given `low_speed_aero` option. -/
def setup_inputs (lowSpeedAero : Bool) : List String :=
  baseInputNames ++
    (if lowSpeedAero then [lsCD0name, lsCL0name, lsCLaName]
     else [crCD0name, crCL0name, crCLaName])

/-- The output list declared by `ComputeCnYawRateWing.setup` for the given
`low_speed_aero` option. -/
def setup_outputs (lowSpeedAero : Bool) : List String :=
  if lowSpeedAero then [lsCnRname] else [crCnRname]

/-- The yaw-damping formula of `ComputeCnYawRateWing.compute` as a function
of its numeric inputs: `Cn_r = lift_effect ⬝ CL_w² + drag_effect ⬝ CD0` with
`CL_w = CL0 + CL_alpha ⬝ AOA_ref`.  `liftEffect` and `dragEffect` abstract
the `FigureDigitization.cn_r_lift_effect` / `cn_r_drag_effect` regressions,
whose code lives outside the provided sources. -/
def cn_r_value (liftEffect : ℚ → ℚ → ℚ → ℚ → ℚ) (dragEffect : ℚ → ℚ → ℚ → ℚ)
    (ar taper sweep sm aoa cd0 cl0 cla : ℚ) : ℚ :=
  liftEffect sm sweep ar taper * (cl0 + cla * aoa) ^ 2 + dragEffect sm sweep ar * cd0

/-- `ComputeCnYawRateWing.compute`: reads the option-independent geometry
inputs, picks the aerodynamic inputs from the namespace selected by
`low_speed_aero`, computes the shared yaw-damping formula, and writes the
single output of the selected namespace. -/
def compute_cn_yaw_rate_wing (liftEffect : ℚ → ℚ → ℚ → ℚ → ℚ)
    (dragEffect : ℚ → ℚ → ℚ → ℚ) (lowSpeedAero : Bool) (inputs : String → ℚ) :
    List (String × ℚ) :=
  let wingAr := inputs arName
  let wingTaper := inputs taperName
  let wingSweep := inputs sweepName
  let aoaRef := inputs aoaName
  let staticMargin := inputs smName
  let cd0 := if lowSpeedAero then inputs lsCD0name else inputs crCD0name
  let cl0 := if lowSpeedAero then inputs lsCL0name else inputs crCL0name
  let cla := if lowSpeedAero then inputs lsCLaName else inputs crCLaName
  let clW := cl0 + cla * aoaRef
  let liftE := liftEffect staticMargin wingSweep wingAr wingTaper
  let dragE := dragEffect staticMargin wingSweep wingAr
  let cnRW := liftE * clW ^ 2 + dragE * cd0
  if lowSpeedAero then [(lsCnRname, cnRW)] else [(crCnRname, cnRW)]

/-- A claim of C4, following the spec's words: the SFC with *only* the
factors `sfc_at_max_power × sfc_ratio / max(thrust, 1e-6)` (and no
mechanical-power factor), evaluated against a flight-point result. -/
def sfcClaimC4 (e : BasicICEngine) (prims : MathPrims) (atm : Atm)
    (x : Except String (ℚ × ℚ × ℚ)) : ℚ :=
  sfc_at_max_power e prims atm.density *
    okPairFst (sfc_ratio e (adjustMach atm) (rateOf x)) / max (thrustOf x) (1 / 1000000)

/-- Dummy interpretation of the external float primitives; no verified
claim depends on their values. -/
def testPrims : MathPrims :=
  { cbrt := fun _ => 0, rpow := fun _ _ => 0, log10 := fun _ => 0,
    sqrt := fun _ => 0, pi := 0 }

/-- A concrete engine for witnesses and counterexamples: two-point propeller
tables with a 1000 N thrust limit, thrust samples from 100 N to 1000 N, a
constant-0.8 efficiency spline, design altitude 1000 m. -/
def mkTestEngine (maxPower fuelType strokes : ℚ) : BasicICEngine :=
  { max_power := maxPower, design_altitude := 1000, design_speed := 80,
    fuel_type := fuelType, strokes_nb := strokes, prop_layout := 1,
    speed_SL := [0, 100], thrust_SL := [100, 1000], thrust_limit_SL := [1000, 1000],
    etaSL := fun _ _ => 4 / 5,
    speed_CL := [0, 100], thrust_CL := [100, 1000], thrust_limit_CL := [1000, 1000],
    etaCL := fun _ _ => 4 / 5 }

/-- 50 kW 4-stroke gasoline test engine. -/
def engGas50 : BasicICEngine := mkTestEngine 50000 1 4

/-- 400 kW 4-stroke diesel test engine (power beyond the fit range of the
diesel SFC regression). -/
def engDiesel400 : BasicICEngine := mkTestEngine 400000 2 4

/-- 1 kW test engine: the whole sampled mechanical-power curve exceeds the
available power, so `max_thrust` takes its iteration branch. -/
def engTiny : BasicICEngine := mkTestEngine 1000 1 4

/-- Sea-level flight point at 50 m/s used by witnesses. -/
def atmTest : Atm :=
  { altitude := 0, density := 1.225, true_airspeed := 50, mach := 1 / 5 }

attribute [local semireducible] Rat.mul Rat.add Rat.sub Rat.inv Rat.ofScientific

set_option maxRecDepth 100000

/-- Forward evaluation of `compute_flight_points` once the input check and
the maximum-thrust computation are known to succeed. -/
theorem compute_flight_points_eval (e : BasicICEngine) (prims : MathPrims) (atm : Atm)
    (es : ℚ) (reg : Option Bool) (rate thrust : Option ℚ) (breg : Bool) (r0 t0 M : ℚ)
    (hc : check_thrust_inputs_scalar reg rate thrust = Except.ok (breg, r0, t0))
    (hM : max_thrust e (adjustMach atm) = Except.ok M) :
    compute_flight_points e prims atm es reg rate thrust =
      Except.ok
        (sfc_at_max_power e prims atm.density *
            (sfc_ratio_val e (adjustMach atm) M ((if breg then min t0 M else r0 * M) / M)).1 *
            (sfc_ratio_val e (adjustMach atm) M ((if breg then min t0 M else r0 * M) / M)).2 /
            max (if breg then min t0 M else r0 * M) (1 / 1000000),
         (if breg then min t0 M else r0 * M) / M,
         if breg then min t0 M else r0 * M) := by
  unfold compute_flight_points sfc_ratio
  rw [hc, hM]

/-- A successful `compute_flight_points` run decomposes into a successful
input check, a successful maximum-thrust computation, and the SFC formula. -/
theorem compute_flight_points_ok_elim {e : BasicICEngine} {prims : MathPrims} {atm : Atm}
    {es : ℚ} {reg : Option Bool} {rate thrust : Option ℚ} {out : ℚ × ℚ × ℚ}
    (h : compute_flight_points e prims atm es reg rate thrust = Except.ok out) :
    ∃ breg r0 t0 M,
      check_thrust_inputs_scalar reg rate thrust = Except.ok (breg, r0, t0) ∧
      max_thrust e (adjustMach atm) = Except.ok M ∧
      out = (sfc_at_max_power e prims atm.density *
               (sfc_ratio_val e (adjustMach atm) M ((if breg then min t0 M else r0 * M) / M)).1 *
               (sfc_ratio_val e (adjustMach atm) M ((if breg then min t0 M else r0 * M) / M)).2 /
               max (if breg then min t0 M else r0 * M) (1 / 1000000),
             (if breg then min t0 M else r0 * M) / M,
             if breg then min t0 M else r0 * M) := by
  cases hc : check_thrust_inputs_scalar reg rate thrust with
  | error s =>
    rw [show compute_flight_points e prims atm es reg rate thrust = Except.error s by
      unfold compute_flight_points; rw [hc]] at h
    exact absurd h (by simp)
  | ok p =>
    obtain ⟨breg, r0, t0⟩ := p
    cases hM : max_thrust e (adjustMach atm) with
    | error s =>
      rw [show compute_flight_points e prims atm es reg rate thrust = Except.error s by
        unfold compute_flight_points; rw [hc, hM]] at h
      exact absurd h (by simp)
    | ok M =>
      rw [compute_flight_points_eval e prims atm es reg rate thrust breg r0 t0 M hc hM] at h
      exact ⟨breg, r0, t0, M, rfl, rfl, (Except.ok.inj h).symm⟩

/-- The rate/thrust values a successful input check passes on are either the
provided inputs or the unread `np.empty_like` placeholder. -/
theorem check_thrust_inputs_scalar_values {reg : Option Bool} {rate thrust : Option ℚ}
    {breg : Bool} {r0 t0 : ℚ}
    (h : check_thrust_inputs_scalar reg rate thrust = Except.ok (breg, r0, t0)) :
    (r0 = rate.getD 0 ∨ r0 = 0) ∧ (t0 = thrust.getD 0 ∨ t0 = 0) := by
  cases reg with
  | none =>
    cases rate <;> cases thrust <;>
      simp_all [check_thrust_inputs_scalar]
  | some b =>
    cases b <;> cases rate <;> cases thrust <;>
      simp_all [check_thrust_inputs_scalar]

/-- C1 (counterexample): the claim "for every valid input the returned SFC
is non-negative" fails: a 400 kW 4-stroke diesel engine at sea level with
thrust rate 1/2 is a valid input on which `_compute_flight_points` succeeds
and returns a negative SFC, because the diesel regression
`-0.964 ⬝ P_kW + 231.91` is negative at 400 kW. -/
theorem C1_counterexample :
    isOkB (compute_flight_points engDiesel400 testPrims atmTest 3 none (some (1 / 2)) none)
        = true ∧
    sfcOf (compute_flight_points engDiesel400 testPrims atmTest 3 none (some (1 / 2)) none)
        < 0 := by
  exact ⟨rfl, by decide⟩

/-- C1 (amended): for a scalar flight point on which `_compute_flight_points`
succeeds, if the provided thrust/thrust-rate inputs are nonnegative, the
computed maximum thrust is nonnegative, the SFC-at-max-power regression
value is nonnegative and the SFC-ratio × mechanical-power product is
nonnegative (all of which hold inside the regressions' fit range), then the
returned SFC and thrust are non-negative; in the exact rational model every
output is finite. -/
theorem C1_sfc_thrust_nonneg (e : BasicICEngine) (prims : MathPrims) (atm : Atm) (es : ℚ)
    (reg : Option Bool) (rate thrust : Option ℚ)
    (hok : isOkB (compute_flight_points e prims atm es reg rate thrust) = true)
    (hrate : 0 ≤ rate.getD 0) (hthrust : 0 ≤ thrust.getD 0)
    (hM : 0 ≤ okQ (max_thrust e (adjustMach atm)))
    (hp : 0 ≤ sfc_at_max_power e prims atm.density)
    (hrm : 0 ≤ okPairFst (sfc_ratio e (adjustMach atm)
              (rateOf (compute_flight_points e prims atm es reg rate thrust))) *
            okPairSnd (sfc_ratio e (adjustMach atm)
              (rateOf (compute_flight_points e prims atm es reg rate thrust)))) :
    0 ≤ sfcOf (compute_flight_points e prims atm es reg rate thrust) ∧
    0 ≤ thrustOf (compute_flight_points e prims atm es reg rate thrust) := by
  cases hres : compute_flight_points e prims atm es reg rate thrust with
  | error s => rw [hres] at hok; exact absurd hok (by simp [isOkB])
  | ok out =>
    obtain ⟨breg, r0, t0, M, hc, hMok, hout⟩ := compute_flight_points_ok_elim hres
    rw [hres] at hrm
    have hMval : okQ (max_thrust e (adjustMach atm)) = M := by rw [hMok]; rfl
    rw [hMval] at hM
    obtain ⟨hr0, ht0⟩ := check_thrust_inputs_scalar_values hc
    have hr0n : 0 ≤ r0 := by
      rcases hr0 with h | h
      · exact h.symm ▸ hrate
      · exact h.ge
    have ht0n : 0 ≤ t0 := by
      rcases ht0 with h | h
      · exact h.symm ▸ hthrust
      · exact h.ge
    have hT : 0 ≤ (if breg then min t0 M else r0 * M) := by
      cases breg with
      | true => simpa using le_min ht0n hM
      | false => simpa using mul_nonneg hr0n hM
    have hsr : sfc_ratio e (adjustMach atm) (rateOf (Except.ok out)) =
        Except.ok (sfc_ratio_val e (adjustMach atm) M
          ((if breg then min t0 M else r0 * M) / M)) := by
      unfold sfc_ratio
      rw [hMok, hout]
      rfl
    rw [hsr] at hrm
    constructor
    · rw [hout]
      show 0 ≤ sfc_at_max_power e prims atm.density * _ * _ / max _ (1 / 1000000)
      refine div_nonneg ?_ (le_trans (by norm_num) (le_max_right _ _))
      rw [mul_assoc]
      exact mul_nonneg hp hrm
    · rw [hout]
      exact hT

/-- C1 witness: the amended nonnegativity theorem applied to the 50 kW
4-stroke gasoline engine at sea level with thrust rate 1/2. -/
theorem C1_witness :
    0 ≤ sfcOf (compute_flight_points engGas50 testPrims atmTest 3 none (some (1 / 2)) none) ∧
    0 ≤ thrustOf (compute_flight_points engGas50 testPrims atmTest 3 none (some (1 / 2)) none) :=
  C1_sfc_thrust_nonneg engGas50 testPrims atmTest 3 none (some (1 / 2)) none
    (by decide) (by decide) (by decide) (by decide) (by decide) (by decide)

/-- C3: the claim that the propeller-efficiency fixed-point iteration of
`max_thrust` terminates for scalar inputs is contradicted by the code: on a
scalar flight point whose whole sampled mechanical-power curve exceeds the
available engine power (here a 1 kW engine at sea level, minimum sampled
power 6250 W), the scalar branch raises `NameError` because
`thrust_max_global` and `idx` are not defined in that branch; the iteration
never runs at all. -/
theorem C3_scalar_iteration_crashes :
    max_thrust engTiny atmTest =
      Except.error "NameError: name thrust_max_global is not defined" := by
  rfl

/-- C4 (counterexample): the returned SFC is *not*
`sfc_at_max_power × sfc_ratio / max(thrust, 1e-6)` — the code multiplies in
the mechanical power as a further factor.  At the 50 kW gasoline engine
with thrust rate 1/2 the two values differ (by the factor 25000 W). -/
theorem C4_counterexample :
    sfcOf (compute_flight_points engGas50 testPrims atmTest 3 none (some (1 / 2)) none) ≠
      sfcClaimC4 engGas50 testPrims atmTest
        (compute_flight_points engGas50 testPrims atmTest 3 none (some (1 / 2)) none) := by
  decide

/-- C4 (amended): the SFC returned by a successful `_compute_flight_points`
run equals the SFC at max power times the SFC-ratio polynomial times the
mechanical power, divided by the realized thrust floored at 1e-6 N — the
mechanical-power factor being the one the claim omitted. -/
theorem C4_sfc_formula (e : BasicICEngine) (prims : MathPrims) (atm : Atm) (es : ℚ)
    (reg : Option Bool) (rate thrust : Option ℚ)
    (hok : isOkB (compute_flight_points e prims atm es reg rate thrust) = true) :
    sfcOf (compute_flight_points e prims atm es reg rate thrust) =
      sfc_at_max_power e prims atm.density *
        okPairFst (sfc_ratio e (adjustMach atm)
          (rateOf (compute_flight_points e prims atm es reg rate thrust))) *
        okPairSnd (sfc_ratio e (adjustMach atm)
          (rateOf (compute_flight_points e prims atm es reg rate thrust))) /
        max (thrustOf (compute_flight_points e prims atm es reg rate thrust))
          (1 / 1000000) := by
  cases hres : compute_flight_points e prims atm es reg rate thrust with
  | error s => rw [hres] at hok; exact absurd hok (by simp [isOkB])
  | ok out =>
    obtain ⟨breg, r0, t0, M, hc, hMok, hout⟩ := compute_flight_points_ok_elim hres
    have hsr : sfc_ratio e (adjustMach atm) (rateOf (Except.ok out)) =
        Except.ok (sfc_ratio_val e (adjustMach atm) M
          ((if breg then min t0 M else r0 * M) / M)) := by
      unfold sfc_ratio
      rw [hMok, hout]
      rfl
    rw [hsr, hout]
    rfl

/-- C4 witness: the amended SFC formula at the 50 kW gasoline engine with
thrust rate 1/2. -/
theorem C4_witness :
    sfcOf (compute_flight_points engGas50 testPrims atmTest 3 none (some (1 / 2)) none) =
      sfc_at_max_power engGas50 testPrims atmTest.density *
        okPairFst (sfc_ratio engGas50 (adjustMach atmTest)
          (rateOf (compute_flight_points engGas50 testPrims atmTest 3 none (some (1 / 2)) none))) *
        okPairSnd (sfc_ratio engGas50 (adjustMach atmTest)
          (rateOf (compute_flight_points engGas50 testPrims atmTest 3 none (some (1 / 2)) none))) /
        max (thrustOf (compute_flight_points engGas50 testPrims atmTest 3 none (some (1 / 2)) none))
          (1 / 1000000) :=
  C4_sfc_formula engGas50 testPrims atmTest 3 none (some (1 / 2)) none (by decide)

/-- C6 (counterexample): the thrust→rate→thrust round trip fails when the
requested thrust exceeds the maximum available thrust: requesting 2000 N
from the 50 kW engine (maximum thrust 800 N) and feeding the derived rate
back returns 800 N, not 2000 N. -/
theorem C6_counterexample :
    (rtOf (compute_flight_points engGas50 testPrims atmTest 3 (some false)
        (some (rtOf (compute_flight_points engGas50 testPrims atmTest 3
          (some true) none (some 2000))).1) none)).2 ≠ 2000 := by
  decide

/-- C6 (amended): at a fixed flight condition with positive maximum thrust
`M`, providing a thrust `T ≤ M` and feeding the derived thrust rate back in
returns exactly `T`; symmetrically, providing a thrust rate `ρ ≤ 1` and
feeding the derived thrust back in returns exactly `ρ` (exact equalities in
the rational model; beyond `M`, resp. 1, the clipping of C9 breaks the
round trip). -/
theorem C6_round_trip (e : BasicICEngine) (prims : MathPrims) (atm : Atm) (es T ρ M : ℚ)
    (hM : max_thrust e (adjustMach atm) = Except.ok M) (hMpos : 0 < M)
    (hT : T ≤ M) (hρ : ρ ≤ 1) :
    (rtOf (compute_flight_points e prims atm es (some false)
        (some (rtOf (compute_flight_points e prims atm es (some true) none (some T))).1)
        none)).2 = T ∧
    (rtOf (compute_flight_points e prims atm es (some true) none
        (some (rtOf (compute_flight_points e prims atm es (some false) (some ρ) none)).2))).1
      = ρ := by
  constructor
  · rw [compute_flight_points_eval e prims atm es (some true) none (some T) true 0 T M rfl hM]
    show (rtOf (compute_flight_points e prims atm es (some false)
        (some (min T M / M)) none)).2 = T
    rw [compute_flight_points_eval e prims atm es (some false) (some (min T M / M)) none
      false (min T M / M) 0 M rfl hM]
    show (if false then min 0 M else min T M / M * M) = T
    rw [if_neg (by simp), min_eq_left hT, div_mul_cancel₀ T hMpos.ne']
  · rw [compute_flight_points_eval e prims atm es (some false) (some ρ) none false ρ 0 M rfl hM]
    show (rtOf (compute_flight_points e prims atm es (some true) none
        (some (if false then min 0 M else ρ * M)))).1 = ρ
    rw [if_neg (by simp)]
    rw [compute_flight_points_eval e prims atm es (some true) none (some (ρ * M))
      true 0 (ρ * M) M rfl hM]
    show min (ρ * M) M / M = ρ
    rw [min_eq_left (by simpa using mul_le_of_le_one_left hMpos.le hρ),
      mul_div_cancel_right₀ ρ hMpos.ne']

/-- C6 witness: the round trip at the 50 kW gasoline engine, starting from
400 N (maximum thrust 800 N) and from rate 1/2. -/
theorem C6_witness :
    (rtOf (compute_flight_points engGas50 testPrims atmTest 3 (some false)
        (some (rtOf (compute_flight_points engGas50 testPrims atmTest 3
          (some true) none (some 400))).1) none)).2 = 400 ∧
    (rtOf (compute_flight_points engGas50 testPrims atmTest 3 (some true) none
        (some (rtOf (compute_flight_points engGas50 testPrims atmTest 3
          (some false) (some (1 / 2)) none)).2))).1 = 1 / 2 :=
  C6_round_trip engGas50 testPrims atmTest 3 400 (1 / 2) 800
    (by rfl) (by norm_num) (by norm_num) (by norm_num)

/-- C2 (counterexample): by the claim's wording, a one-element sequence
`thrust_is_regulated = [True]` with `thrust` provided but `thrust_rate`
missing should raise the inconsistency error; the code instead treats any
size-1 value as a scalar and succeeds. -/
theorem C2_counterexample :
    c2SpecErrorExpected (some (BVal.arr [true])) none (some (QVal.arr [100])) = true ∧
    isOkB (check_thrust_inputs (some (BVal.arr [true])) none (some (QVal.arr [100]))) = true :=
  ⟨rfl, rfl⟩

/-- C2 (amended): `_check_thrust_inputs` raises the inconsistency error
exactly when: `thrust_is_regulated` is `None` and neither input is given; a
size-1 `thrust_is_regulated` (scalar or one-element sequence) is truthy
(resp. falsy) and `thrust` (resp. `thrust_rate`) is missing; or
`thrust_is_regulated` has size ≠ 1 and `thrust_rate` or `thrust` is missing
or differs in shape from `thrust_is_regulated`.  All other inputs pass. -/
theorem C2_check_iff (reg : Option BVal) (rate thrust : Option QVal) :
    isOkB (check_thrust_inputs reg rate thrust) =
      !c2AmendedErrorExpected reg rate thrust := by
  cases reg with
  | none => cases rate <;> cases thrust <;> rfl
  | some rv =>
    show isOkB (check_thrust_inputs (some rv) rate thrust) = _
    dsimp only [check_thrust_inputs, c2AmendedErrorExpected]
    by_cases h1 : rv.size = 1
    · rw [if_pos h1, if_pos h1]
      cases hb : rv.truthy
      · cases rate <;> simp [isOkB]
      · cases thrust <;> simp [isOkB]
    · rw [if_neg h1, if_neg h1]
      cases rate with
      | none => cases thrust <;> rfl
      | some r =>
        cases thrust with
        | none => rfl
        | some t =>
          dsimp only
          by_cases hsh : r.shape ≠ rv.shape ∨ t.shape ≠ rv.shape
          · rw [if_pos hsh]
            rcases hsh with hsh | hsh <;> simp [isOkB, hsh]
          · rw [if_neg hsh]
            push_neg at hsh
            simp [isOkB, hsh.1, hsh.2]

/-- C8: `ComputeCnYawRateWing` declares, for `low_speed_aero = True`, exactly
the low_speed-prefixed aerodynamic inputs besides the shared geometry ones
and only the low_speed `Cn_r` output, and for `low_speed_aero = False` the
cruise-prefixed counterparts; `compute` writes that single output, and the
value is the same function `cn_r_value` of the selected inputs in both
cases. -/
theorem C8_namespace_selection :
    ∀ (liftEffect : ℚ → ℚ → ℚ → ℚ → ℚ) (dragEffect : ℚ → ℚ → ℚ → ℚ)
      (inputs : String → ℚ),
      setup_inputs true = baseInputNames ++ [lsCD0name, lsCL0name, lsCLaName] ∧
      setup_inputs false = baseInputNames ++ [crCD0name, crCL0name, crCLaName] ∧
      setup_outputs true = [lsCnRname] ∧
      setup_outputs false = [crCnRname] ∧
      compute_cn_yaw_rate_wing liftEffect dragEffect true inputs =
        [(lsCnRname,
          cn_r_value liftEffect dragEffect (inputs arName) (inputs taperName)
            (inputs sweepName) (inputs smName) (inputs aoaName)
            (inputs lsCD0name) (inputs lsCL0name) (inputs lsCLaName))] ∧
      compute_cn_yaw_rate_wing liftEffect dragEffect false inputs =
        [(crCnRname,
          cn_r_value liftEffect dragEffect (inputs arName) (inputs taperName)
            (inputs sweepName) (inputs smName) (inputs aoaName)
            (inputs crCD0name) (inputs crCL0name) (inputs crCLaName))] :=
  fun _ _ _ => ⟨rfl, rfl, rfl, rfl, rfl, rfl⟩

/-- `max_thrust_arr` returns one maximum thrust per flight point. -/
theorem max_thrust_arr_length (e : BasicICEngine) (atms : List Atm) (fuel : ℕ)
    (M : List ℚ) (h : max_thrust_arr e atms fuel = Except.ok M) :
    M.length = atms.length := by
  induction atms generalizing M with
  | nil =>
    unfold max_thrust_arr at h
    cases h
    rfl
  | cons a rest ih =>
    unfold max_thrust_arr at h
    cases hx : max_thrust_idx e a fuel with
    | error s => rw [hx] at h; exact absurd h (by simp)
    | ok x =>
      rw [hx] at h
      cases hxs : max_thrust_arr e rest fuel with
      | error s => rw [hxs] at h; exact absurd h (by simp)
      | ok xs =>
        rw [hxs] at h
        have hM : x :: xs = M := Except.ok.inj h
        rw [← hM]
        simpa using ih xs hxs

/-- `thrustBook` preserves the common length of its inputs. -/
theorem thrustBook_length (bs : List Bool) (rs ts ms : List ℚ)
    (h1 : rs.length = bs.length) (h2 : ts.length = bs.length)
    (h3 : ms.length = bs.length) :
    (thrustBook bs rs ts ms).length = bs.length := by
  induction bs generalizing rs ts ms with
  | nil => rfl
  | cons b bs ih =>
    cases rs with
    | nil => simp at h1
    | cons r rs =>
      cases ts with
      | nil => simp at h2
      | cons t ts =>
        cases ms with
        | nil => simp at h3
        | cons m ms =>
          simpa [thrustBook] using
            ih rs ts ms (by simpa using h1) (by simpa using h2) (by simpa using h3)

/-- Element `i` of `thrustBook`: clip at the maximum thrust when regulated,
convert the rate otherwise. -/
theorem thrustBook_getD (bs : List Bool) (rs ts ms : List ℚ) (i : ℕ)
    (hi : i < bs.length) (h1 : rs.length = bs.length) (h2 : ts.length = bs.length)
    (h3 : ms.length = bs.length) :
    (thrustBook bs rs ts ms).getD i 0 =
      if bs.getD i false then min (ts.getD i 0) (ms.getD i 0)
      else rs.getD i 0 * ms.getD i 0 := by
  induction bs generalizing rs ts ms i with
  | nil => exact absurd hi (by simp)
  | cons b bs ih =>
    cases rs with
    | nil => simp at h1
    | cons r rs =>
      cases ts with
      | nil => simp at h2
      | cons t ts =>
        cases ms with
        | nil => simp at h3
        | cons m ms =>
          cases i with
          | zero => simp [thrustBook]
          | succ i =>
            simpa [thrustBook] using
              ih rs ts ms i (by simpa using hi) (by simpa using h1)
                (by simpa using h2) (by simpa using h3)

/-- Element `i` of an element-wise quotient of equally long lists. -/
theorem zipWith_div_getD (as bs : List ℚ) (i : ℕ) (hi : i < as.length)
    (h : bs.length = as.length) :
    (List.zipWith (· / ·) as bs).getD i 0 = as.getD i 0 / bs.getD i 0 := by
  induction as generalizing bs i with
  | nil => exact absurd hi (by simp)
  | cons a as ih =>
    cases bs with
    | nil => simp at h
    | cons b bs =>
      cases i with
      | zero => simp
      | succ i => simpa using ih bs i (by simpa using hi) (by simpa using h)

/-- A successful array `_compute_flight_points` run decomposes into equal
input lengths, a successful maximum-thrust computation and a successful SFC
ratio computation, with the outputs given by the element-wise bookkeeping. -/
theorem compute_flight_points_arr_ok_elim {e : BasicICEngine} {prims : MathPrims}
    {atms : List Atm} {ess : List ℚ} {reg : List Bool} {rate thrust : List ℚ} {fuel : ℕ}
    {out : List ℚ × List ℚ × List ℚ}
    (h : compute_flight_points_arr e prims atms ess reg rate thrust fuel = Except.ok out) :
    rate.length = reg.length ∧ thrust.length = reg.length ∧ atms.length = reg.length ∧
    ∃ M rm,
      max_thrust_arr e (atms.map adjustMach) fuel = Except.ok M ∧
      sfc_ratio_arr e (atms.map adjustMach)
        (List.zipWith (· / ·) (thrustBook reg rate thrust M) M) fuel = Except.ok rm ∧
      out = (List.zipWith (fun pr t => pr.1 * pr.2.1 * pr.2.2 / max t (1 / 1000000))
               (((atms.map adjustMach).map fun a => sfc_at_max_power e prims a.density).zip rm)
               (thrustBook reg rate thrust M),
             List.zipWith (· / ·) (thrustBook reg rate thrust M) M,
             thrustBook reg rate thrust M) := by
  unfold compute_flight_points_arr at h
  by_cases hlen : rate.length = reg.length ∧ thrust.length = reg.length ∧
      atms.length = reg.length
  · rw [if_pos hlen] at h
    dsimp only at h
    refine ⟨hlen.1, hlen.2.1, hlen.2.2, ?_⟩
    cases hM : max_thrust_arr e (atms.map adjustMach) fuel with
    | error s => rw [hM] at h; exact absurd h (by simp)
    | ok M =>
      rw [hM] at h
      dsimp only at h
      cases hrm : sfc_ratio_arr e (atms.map adjustMach)
          (List.zipWith (· / ·) (thrustBook reg rate thrust M) M) fuel with
      | error s => rw [hrm] at h; exact absurd h (by simp)
      | ok rm =>
        rw [hrm] at h
        exact ⟨M, rm, rfl, hrm, (Except.ok.inj h).symm⟩
  · rw [if_neg hlen] at h
    exact absurd h (by simp)

/-- C5: in a successful array run of `_compute_flight_points`, the returned
thrust-rate vector is exactly the element-wise quotient of the returned
thrust vector by the maximum-thrust vector at those flight conditions
(line 259 of the source); the equality is exact in the rational model. -/
theorem C5_thrust_rate_ratio (e : BasicICEngine) (prims : MathPrims) (atms : List Atm)
    (ess : List ℚ) (reg : List Bool) (rate thrust : List ℚ) (fuel : ℕ)
    (hok : isOkB (compute_flight_points_arr e prims atms ess reg rate thrust fuel) = true) :
    ratesOfA (compute_flight_points_arr e prims atms ess reg rate thrust fuel) =
      List.zipWith (· / ·)
        (thrustsOfA (compute_flight_points_arr e prims atms ess reg rate thrust fuel))
        (okList (max_thrust_arr e (atms.map adjustMach) fuel)) := by
  cases hres : compute_flight_points_arr e prims atms ess reg rate thrust fuel with
  | error s => rw [hres] at hok; exact absurd hok (by simp [isOkB])
  | ok out =>
    obtain ⟨h1, h2, h3, M, rm, hM, hrm, hout⟩ := compute_flight_points_arr_ok_elim hres
    rw [hM, hout]
    rfl

/-- C5 witness: two sea-level flight points on the 50 kW engine, one
regulated at 2000 N and one at rate 1/2. -/
theorem C5_witness :
    ratesOfA (compute_flight_points_arr engGas50 testPrims [atmTest, atmTest] [3, 3]
        [true, false] [0, 1 / 2] [2000, 0] 5) =
      List.zipWith (· / ·)
        (thrustsOfA (compute_flight_points_arr engGas50 testPrims [atmTest, atmTest] [3, 3]
          [true, false] [0, 1 / 2] [2000, 0] 5))
        (okList (max_thrust_arr engGas50 ([atmTest, atmTest].map adjustMach) 5)) :=
  C5_thrust_rate_ratio engGas50 testPrims [atmTest, atmTest] [3, 3]
    [true, false] [0, 1 / 2] [2000, 0] 5 (by decide)

/-- C9: in a successful array run, every regulated flight point has its
returned thrust clipped at (hence never exceeding) the maximum available
thrust, and — when that maximum is positive — a returned thrust rate of at
most 1; no error is raised by the clipping. -/
theorem C9_regulated_clipping (e : BasicICEngine) (prims : MathPrims) (atms : List Atm)
    (ess : List ℚ) (reg : List Bool) (rate thrust : List ℚ) (fuel : ℕ) (i : ℕ)
    (hok : isOkB (compute_flight_points_arr e prims atms ess reg rate thrust fuel) = true)
    (hi : i < reg.length) (hreg : reg.getD i false = true) :
    (thrustsOfA (compute_flight_points_arr e prims atms ess reg rate thrust fuel)).getD i 0 ≤
      (okList (max_thrust_arr e (atms.map adjustMach) fuel)).getD i 0 ∧
    (0 < (okList (max_thrust_arr e (atms.map adjustMach) fuel)).getD i 0 →
      (ratesOfA (compute_flight_points_arr e prims atms ess reg rate thrust fuel)).getD i 0
        ≤ 1) := by
  cases hres : compute_flight_points_arr e prims atms ess reg rate thrust fuel with
  | error s => rw [hres] at hok; exact absurd hok (by simp [isOkB])
  | ok out =>
    obtain ⟨h1, h2, h3, M, rm, hM, hrm, hout⟩ := compute_flight_points_arr_ok_elim hres
    have hMlen : M.length = reg.length := by
      rw [max_thrust_arr_length e (atms.map adjustMach) fuel M hM]
      simpa using h3
    have hTBlen : (thrustBook reg rate thrust M).length = reg.length :=
      thrustBook_length reg rate thrust M h1 h2 hMlen
    have hTB := thrustBook_getD reg rate thrust M i hi h1 h2 hMlen
    rw [hM, hout]
    constructor
    · show (thrustBook reg rate thrust M).getD i 0 ≤ M.getD i 0
      rw [hTB, if_pos hreg]
      exact min_le_right _ _
    · intro hpos
      show (List.zipWith (· / ·) (thrustBook reg rate thrust M) M).getD i 0 ≤ 1
      rw [zipWith_div_getD (thrustBook reg rate thrust M) M i
        (by rw [hTBlen]; exact hi) (by rw [hTBlen]; exact hMlen)]
      rw [hTB, if_pos hreg]
      exact (div_le_one hpos).mpr (min_le_right _ _)

/-- C9 witness: the clipping theorem at the first (regulated, 2000 N
requested, 800 N available) flight point of the two-point array run. -/
theorem C9_witness :
    (thrustsOfA (compute_flight_points_arr engGas50 testPrims [atmTest, atmTest] [3, 3]
        [true, false] [0, 1 / 2] [2000, 0] 5)).getD 0 0 ≤
      (okList (max_thrust_arr engGas50 ([atmTest, atmTest].map adjustMach) 5)).getD 0 0 ∧
    (0 < (okList (max_thrust_arr engGas50 ([atmTest, atmTest].map adjustMach) 5)).getD 0 0 →
      (ratesOfA (compute_flight_points_arr engGas50 testPrims [atmTest, atmTest] [3, 3]
        [true, false] [0, 1 / 2] [2000, 0] 5)).getD 0 0 ≤ 1) :=
  C9_regulated_clipping engGas50 testPrims [atmTest, atmTest] [3, 3]
    [true, false] [0, 1 / 2] [2000, 0] 5 0 (by decide) (by decide) (by decide)

/-- C10: every call of `compute_drag` fails: its first statement unpacks the
4-tuple returned by `compute_dimensions` into six variables, which raises
`ValueError` before any drag is computed, for every engine and input. -/
theorem C10_compute_drag_always_fails :
    ∀ (e : BasicICEngine) (prims : MathPrims) (mach unitReynolds wingMac : ℚ),
      compute_drag e prims mach unitReynolds wingMac =
        Except.error "ValueError: not enough values to unpack (expected 6)" :=
  fun _ _ _ _ _ => rfl

end FastGA

